import Mathlib

/-!
Shallow embedding of the excerpted ReCirq documentation material:
the table-of-contents manifest `docs/_toc.yaml`, the tutorial notebook
`docs/qcqmc/high_level.ipynb`, and the end-to-end tutorial notebook
`docs/qcqmc/full_workflow.ipynb`.

The notebooks are straight-line sequences of parameter-object
constructions and `build_...` factory calls into external libraries.
We embed (a) the pipeline structure of each notebook — which `Params`
objects are constructed, in which order, which earlier objects they
reference, and which `build_...` calls produce which `Data` objects
from which `Params` and dependency mappings — (b) the cell-level
structure relevant to error handling and concurrency, (c) the
table-of-contents entry list at the YAML key/value level, and (d) the
concrete expressions of the end-to-end notebook's AFQMC section
(`num_elec`, `chk_path`, the two shape assertions).
-/

namespace ReCirq

/-- The five pipeline stages of the QCQMC tutorial notebooks, in the
order of the notebooks' section headings. -/
inductive Stage
  | hamiltonian
  | trialWf
  | blueprint
  | experiment
  | analysis
  deriving DecidableEq, Repr

/-- Position of a stage in the pipeline order. -/
def Stage.idx : Stage → Nat
  | .hamiltonian => 0
  | .trialWf => 1
  | .blueprint => 2
  | .experiment => 3
  | .analysis => 4

/-- An expression in a notebook cell that denotes a `Params` object:
either a variable holding a `Params` object, or the `.params` attribute
of a variable holding a `Data` object (the factory methods store the
`Params` a `Data` was built from on the `Data` object). -/
inductive PExpr
  | var (name : String)
  | paramsOf (dataName : String)
  deriving DecidableEq, Repr

/-- One `[Name]Params` dataclass construction in a notebook: the
variable it is bound to, the stage it configures, the `Params`-typed
expressions appearing among its constructor arguments, the `seed`
keyword argument when one is passed, and the position of the
construction in the notebook's statement order. -/
structure ParamsDef where
  name : String
  stage : Stage
  refs : List PExpr
  seed : Option Nat
  pos : Nat
  deriving DecidableEq, Repr

/-- One `build_...` factory call in a notebook: the variable the
resulting `Data` object is bound to, the factory method name, the
stage, the variable passed as the `Params` argument, the
`dependencies` mapping when one is passed (`none` when the call has no
`dependencies` argument), and the position of the call in the
notebook's statement order. -/
structure BuildCall where
  dataName : String
  factory : String
  stage : Stage
  paramsArg : String
  deps : Option (List (PExpr × String))
  pos : Nat
  deriving DecidableEq, Repr

/-- The pipeline content of one notebook. -/
structure Notebook where
  paramsDefs : List ParamsDef
  buildCalls : List BuildCall
  deriving DecidableEq, Repr

/-- The `Params` variable a `Data` variable was built from. -/
def Notebook.builtFrom? (nb : Notebook) (dataName : String) : Option String :=
  (nb.buildCalls.find? (fun b => b.dataName == dataName)).map (fun b => b.paramsArg)

/-- Resolve a `Params`-denoting expression to the `Params` variable it
refers to (`dataVar.params` resolves to the `Params` the factory call
producing `dataVar` was given). -/
def Notebook.resolveP (nb : Notebook) : PExpr → Option String
  | .var n => some n
  | .paramsOf d => nb.builtFrom? d

/-- The stage of a `Params` variable. -/
def Notebook.stageOf? (nb : Notebook) (name : String) : Option Stage :=
  (nb.paramsDefs.find? (fun p => p.name == name)).map (fun p => p.stage)

/-- The statement position at which a `Params` variable is constructed. -/
def Notebook.posOfParams? (nb : Notebook) (name : String) : Option Nat :=
  (nb.paramsDefs.find? (fun p => p.name == name)).map (fun p => p.pos)

/-- Pipeline content of `docs/qcqmc/high_level.ipynb`: five `Params`
constructions and five `build_...` calls, interleaved in statement
order 0..9. -/
def high_level : Notebook where
  paramsDefs := [
    { name := "hamiltonian_params", stage := .hamiltonian, refs := [], seed := none, pos := 0 },
    { name := "trial_wf_params", stage := .trialWf,
      refs := [.var "hamiltonian_params"], seed := none, pos := 2 },
    { name := "blueprint_params", stage := .blueprint,
      refs := [.var "trial_wf_params"], seed := none, pos := 4 },
    { name := "expt_params", stage := .experiment,
      refs := [.var "blueprint_params"], seed := none, pos := 6 },
    { name := "analysis_params", stage := .analysis,
      refs := [.var "expt_params"], seed := none, pos := 8 }]
  buildCalls := [
    { dataName := "hamiltonian_data", factory := "build_hamiltonian_from_file",
      stage := .hamiltonian, paramsArg := "hamiltonian_params", deps := none, pos := 1 },
    { dataName := "trial_wf_data", factory := "build_pp_plus_trial_from_dependencies",
      stage := .trialWf, paramsArg := "trial_wf_params",
      deps := some [(.var "hamiltonian_params", "hamiltonian_data")], pos := 3 },
    { dataName := "blueprint_data", factory := "build_blueprint_from_dependencies",
      stage := .blueprint, paramsArg := "blueprint_params",
      deps := some [(.var "trial_wf_params", "trial_wf_data")], pos := 5 },
    { dataName := "expt_data", factory := "build_experiment_from_dependencies",
      stage := .experiment, paramsArg := "expt_params",
      deps := some [(.var "blueprint_params", "blueprint_data")], pos := 7 },
    { dataName := "analysis_data", factory := "build_analysis_from_dependencies",
      stage := .analysis, paramsArg := "analysis_params",
      deps := some [(.var "expt_params", "expt_data"),
                    (.var "blueprint_params", "blueprint_data"),
                    (.var "trial_wf_params", "trial_wf_data")], pos := 9 }]

/-- Pipeline content of `docs/qcqmc/full_workflow.ipynb`: five `Params`
constructions and five `build_...` calls, interleaved in statement
order 0..9.  The experiment stage's `Params` construction and its
dependency key use `blueprint.params`, and the analysis stage's
`Params` construction uses `experiment.params`. -/
def full_workflow : Notebook where
  paramsDefs := [
    { name := "pyscf_params", stage := .hamiltonian, refs := [], seed := none, pos := 0 },
    { name := "pp_params", stage := .trialWf,
      refs := [.var "pyscf_params"], seed := none, pos := 2 },
    { name := "blueprint_params", stage := .blueprint,
      refs := [.var "pp_params"], seed := some 1, pos := 4 },
    { name := "simulated_experiment_params", stage := .experiment,
      refs := [.paramsOf "blueprint"], seed := some 1, pos := 6 },
    { name := "analysis_params", stage := .analysis,
      refs := [.paramsOf "experiment"], seed := none, pos := 8 }]
  buildCalls := [
    { dataName := "pyscf_hamiltonian", factory := "build_hamiltonian_from_pyscf",
      stage := .hamiltonian, paramsArg := "pyscf_params", deps := none, pos := 1 },
    { dataName := "trial_wf", factory := "build_pp_plus_trial_from_dependencies",
      stage := .trialWf, paramsArg := "pp_params",
      deps := some [(.var "pyscf_params", "pyscf_hamiltonian")], pos := 3 },
    { dataName := "blueprint", factory := "build_blueprint_from_dependencies",
      stage := .blueprint, paramsArg := "blueprint_params",
      deps := some [(.var "pp_params", "trial_wf")], pos := 5 },
    { dataName := "experiment", factory := "build_experiment_from_dependencies",
      stage := .experiment, paramsArg := "simulated_experiment_params",
      deps := some [(.paramsOf "blueprint", "blueprint")], pos := 7 },
    { dataName := "analysis", factory := "build_analysis_from_dependencies",
      stage := .analysis, paramsArg := "analysis_params",
      deps := some [(.var "pyscf_params", "pyscf_hamiltonian"),
                    (.var "pp_params", "trial_wf"),
                    (.var "blueprint_params", "blueprint"),
                    (.var "simulated_experiment_params", "experiment")], pos := 9 }]

/-- Whether a notebook cell is a markdown (narrative) cell or a code
cell. -/
inductive CellType
  | markdown
  | code
  deriving DecidableEq, Repr

/-- Cell-level structure of a notebook cell: its type, the modules its
source imports, the exception classes caught by `try`/`except`
handlers in the cell, the number of `if` statements, the number of
`assert` statements, and whether the cell's source text mentions MPI. -/
structure Cell where
  cellType : CellType
  importedModules : List String := []
  caught : List String := []
  ifCount : Nat := 0
  assertCount : Nat := 0
  mentionsMPI : Bool := false
  deriving DecidableEq, Repr

/-- The cells of `docs/qcqmc/high_level.ipynb`, in order. -/
def hl_cells : List Cell := [
  { cellType := .markdown },                                          -- QCQMC intro
  { cellType := .markdown },                                          -- Setup
  { cellType := .code, importedModules := ["recirq"],
    caught := ["ImportError"] },                                      -- try import recirq
  { cellType := .code, importedModules := ["attrs"] },                -- print_fields helper
  { cellType := .markdown },                                          -- Hamiltonian
  { cellType := .code, importedModules := ["recirq.qcqmc.hamiltonian"] },
  { cellType := .code, importedModules := ["recirq.qcqmc.hamiltonian"] },
  { cellType := .markdown },                                          -- Trial Wavefunction
  { cellType := .code, importedModules := ["recirq.qcqmc.trial_wf"] },
  { cellType := .code, importedModules := ["recirq.qcqmc.trial_wf"] },
  { cellType := .markdown },                                          -- Blueprint
  { cellType := .code },                                              -- qubits = ...
  { cellType := .code, importedModules := ["recirq.qcqmc.blueprint"] },
  { cellType := .code, importedModules := ["recirq.qcqmc.blueprint"] },
  { cellType := .markdown },                                          -- Experiment
  { cellType := .code, importedModules := ["recirq.qcqmc.experiment"] },
  { cellType := .code, importedModules := ["recirq.qcqmc.experiment"] },
  { cellType := .markdown },                                          -- Overlap Analysis
  { cellType := .code, importedModules := ["recirq.qcqmc.analysis"] },
  { cellType := .code, importedModules := ["recirq.qcqmc.analysis"] }]

/-- The cells of `docs/qcqmc/full_workflow.ipynb`, in order. -/
def fw_cells : List Cell := [
  { cellType := .markdown },                                          -- End-to-End Example
  { cellType := .markdown },                                          -- Setup
  { cellType := .code, importedModules := ["recirq"],
    caught := ["ImportError"] },                                      -- try import recirq
  { cellType := .markdown },                                          -- Define an SCF Job
  { cellType := .code, importedModules := ["recirq.qcqmc.hamiltonian"] },
  { cellType := .markdown },                                          -- Build PP Wavefunction
  { cellType := .code, importedModules := ["numpy", "recirq.qcqmc.trial_wf"] },
  { cellType := .markdown },                                          -- compare energies
  { cellType := .code },                                              -- energy prints
  { cellType := .markdown },                                          -- build an experiment
  { cellType := .code, importedModules := ["recirq.qcqmc.blueprint",
                                           "recirq.qcqmc.experiment"] },
  { cellType := .markdown },                                          -- post-processed
  { cellType := .code, importedModules := ["typing", "recirq.qcqmc.data",
                                           "recirq.qcqmc.analysis"] },
  { cellType := .markdown },                                          -- save for ipie
  { cellType := .code, importedModules := ["recirq.qcqmc.convert_to_ipie"] },
  { cellType := .markdown },                                          -- Run AFQMC
  { cellType := .code, importedModules := ["ipie.systems.generic",
                                           "ipie.utils.from_pyscf"],
    assertCount := 2 },                                               -- generate ham + asserts
  { cellType := .markdown },                                          -- ParticleHole narrative
  { cellType := .code, importedModules := ["h5py",
                                           "ipie.trial_wavefunction.particle_hole"] },
  { cellType := .code, assertCount := 1 },                            -- calculate_energy
  { cellType := .markdown },                                          -- chol_cut note
  { cellType := .code, importedModules := ["ipie.qmc.afqmc"] },       -- AFQMC.build
  { cellType := .code, importedModules := ["recirq.qcqmc.config", "pathlib"],
    ifCount := 1 },                                                   -- mkdir + run
  { cellType := .markdown },                                          -- visualize
  { cellType := .code, importedModules := ["ipie.analysis.extraction",
                                           "matplotlib.pyplot"] },
  { cellType := .markdown },                                          -- reblock narrative
  { cellType := .code, importedModules := ["ipie.analysis.blocking"] },
  { cellType := .markdown, mentionsMPI := true },                     -- MPI suggestion
  { cellType := .markdown, mentionsMPI := true }]                     -- Next steps

/-- The entry list of `docs/_toc.yaml` under the `toc:` key, each
entry given as its YAML key/value pairs in order. -/
def toc : List (List (String × String)) := [
  [("heading", "ReCirq Guide")],
  [("title", "Research with ReCirq"), ("path", "/cirq/experiments/research")],
  [("title", "Data collection idioms"), ("path", "/cirq/experiments/guide/data_collection_idioms")],
  [("title", "Data collection"), ("path", "/cirq/experiments/guide/data_collection")],
  [("title", "Data analysis"), ("path", "/cirq/experiments/guide/data_analysis")],
  [("title", "Best practices"), ("path", "/cirq/experiments/guide/best_practices")],
  [("heading", "QAOA")],
  [("title", "Overview"), ("path", "/cirq/experiments/qaoa")],
  [("title", "Example problems"), ("path", "/cirq/experiments/qaoa/example_problems")],
  [("title", "Tasks"), ("path", "/cirq/experiments/qaoa/tasks")],
  [("title", "Precomputed analysis"), ("path", "/cirq/experiments/qaoa/precomputed_analysis")],
  [("title", "Landscape analysis"), ("path", "/cirq/experiments/qaoa/landscape_analysis")],
  [("title", "Optimization analysis"), ("path", "/cirq/experiments/qaoa/optimization_analysis")],
  [("title", "Hardware grid circuits"), ("path", "/cirq/experiments/qaoa/hardware_grid_circuits")],
  [("title", "Routing with tket"), ("path", "/cirq/experiments/qaoa/routing_with_tket")],
  [("title", "QAOA Max-Cut"), ("path", "/cirq/experiments/qaoa/qaoa_maxcut")],
  [("title", "QAOA: Ising Model"), ("path", "/cirq/experiments/qaoa/qaoa_ising")],
  [("title", "Binary Paintshop"), ("path", "/cirq/experiments/qaoa/binary_paintshop")],
  [("include", "/cirq/experiments/unitary/_toc.yaml")],
  [("heading", "Hartree-Fock VQE")],
  [("title", "Overview"), ("path", "/cirq/experiments/hfvqe")],
  [("title", "Quickstart"), ("path", "/cirq/experiments/hfvqe/quickstart")],
  [("title", "Molecular data"), ("path", "/cirq/experiments/hfvqe/molecular_data")],
  [("heading", "Fermi-Hubbard")],
  [("title", "Overview"), ("path", "/cirq/experiments/fermi_hubbard")],
  [("title", "Experiment example"), ("path", "/cirq/experiments/fermi_hubbard/experiment_example")],
  [("title", "Spin-charge separation results"), ("path", "/cirq/experiments/fermi_hubbard/publication_results")],
  [("heading", "Quantum scrambling")],
  [("title", "Overview"), ("path", "/cirq/experiments/otoc")],
  [("title", "Experiment example"), ("path", "/cirq/experiments/otoc/otoc_example")],
  [("heading", "Toric Code")],
  [("title", "Overview"), ("path", "/cirq/experiments/toric_code")],
  [("title", "Ground State"), ("path", "/cirq/experiments/toric_code/toric_code_ground_state")],
  [("heading", "Rabi oscillations")],
  [("title", "Rabi Oscillation Experiment"), ("path", "/cirq/experiments/benchmarks/rabi_oscillations")],
  [("heading", "Kardar-Parisi-Zhang")],
  [("title", "KPZ and the Heisenberg Spin Chain"), ("path", "/cirq/experiments/kpz/kpz")],
  [("heading", "Quantum-Classical Quantum Monte Carlo")],
  [("title", "Overview"), ("path", "/cirq/experiments/qcqmc")],
  [("title", "Code Layout"), ("path", "/cirq/experiments/qcqmc/high_level")],
  [("title", "End-to-End Example"), ("path", "/cirq/experiments/qcqmc/full_workflow")],
  [("title", "Experimental Wavefunctions"), ("path", "/cirq/experiments/qcqmc/experimental_wavefunctions")],
  [("heading", "Lattice Gauge Theory")],
  [("title", "Simulation of Charges and Strings"), ("path", "/cirq/experiments/lattice_gauge/lattice_gauge")]]

/-- The `PyscfHamiltonianParams` construction of the end-to-end
notebook, with the fields exactly as passed in the notebook cell
(float coordinates written as rationals). -/
structure PyscfHamiltonianParams where
  name : String
  n_orb : Nat
  n_elec : Nat
  geometry : List (String × (ℚ × ℚ × ℚ))
  basis : String
  multiplicity : Nat
  charge : Int
  save_chkfile : Bool
  overwrite_chk_file : Bool
  deriving DecidableEq

/-- The `pyscf_params` object of `full_workflow.ipynb`. -/
def pyscf_params : PyscfHamiltonianParams where
  name := "TEST_square_H4"
  n_orb := 4
  n_elec := 4
  geometry := [("H", (0, 0, 0)), ("H", (0, 0, 123/100)),
               ("H", (123/100, 0, 0)), ("H", (123/100, 0, 123/100))]
  basis := "sto3g"
  multiplicity := 1
  charge := 0
  save_chkfile := true
  overwrite_chk_file := true

/-- Split a character list at every occurrence of the separator
character, keeping empty pieces. -/
def splitOnChar (c : Char) : List Char → List (List Char)
  | [] => [[]]
  | a :: as =>
    let r := splitOnChar c as
    if a = c then [] :: r
    else
      match r with
      | [] => [[a]]
      | h :: t => (a :: h) :: t

/-- Join character-list pieces with a separator character. -/
def joinWith (c : Char) : List (List Char) → List Char
  | [] => []
  | [x] => x
  | x :: xs => x ++ c :: joinWith c xs

/-- A path component with its extension (the part from the last dot
on) removed, following `pathlib.PurePath.stem`: a component with no
dot, or whose only dot is the leading one, has no extension. -/
def stemOfChars (nm : List Char) : List Char :=
  match splitOnChar '.' nm with
  | [] => nm
  | [_] => nm
  | [] :: [_] => nm
  | ps => joinWith '.' ps.dropLast

/-- `pathlib.PurePath.with_suffix`: replace the extension of the final
path component by `sfx`. -/
def with_suffix (p sfx : String) : String :=
  match (splitOnChar '/' p.toList).reverse with
  | [] => p ++ sfx
  | nm :: rest =>
    String.mk (joinWith '/' ((stemOfChars nm ++ sfx.toList) :: rest).reverse)

/-- `chk_path` as computed in the SCF-job cell of the end-to-end
notebook, immediately after `build_hamiltonian_from_pyscf`:
`pyscf_params.base_path.with_suffix(".chk")`.  The `base_path`
attribute itself is computed by the recirq library outside the
excerpted source, so it is taken here as an arbitrary string. -/
def chk_path_scf_cell (base_path : String) : String :=
  with_suffix base_path ".chk"

/-- `chk_path` as recomputed in the AFQMC-setup cell of the end-to-end
notebook: `pyscf_params.base_path.with_suffix(".chk")`. -/
def chk_path_afqmc_cell (base_path : String) : String :=
  with_suffix base_path ".chk"

/-- The argument the AFQMC-setup cell passes to the external routine
`generate_hamiltonian_from_chk`: `str(chk_path)` for the `chk_path`
computed in that cell. -/
def generate_hamiltonian_arg (base_path : String) : String :=
  chk_path_afqmc_cell base_path

/-- The shape data of the factorized Hamiltonian returned by the
external routine `generate_hamiltonian_from_chk`: the shape of the
one-body tensor `ham.H1` and the first dimension of the Cholesky
tensor `ham.chol`. -/
structure IpieHamShape where
  H1_shape : Nat × Nat × Nat
  chol_shape0 : Nat
  deriving DecidableEq

/-- `num_elec` as computed in the AFQMC-setup cell of the end-to-end
notebook: `(n_elec // 2,) * 2`, the two-fold repetition of the floor
quotient. -/
def num_elec_pair (n_elec : Nat) : Nat × Nat :=
  (n_elec / 2, n_elec / 2)

/-- Execution of the AFQMC section of the end-to-end notebook from the
`generate_hamiltonian_from_chk` cell through the `ParticleHole`
trial-wavefunction cell, as a function of the shape of the externally
produced Hamiltonian: the list of statements executed in order,
together with the uncaught error aborting the run, if any.  Execution
stops at the first failing `assert`. -/
def afqmc_section_run (pp : PyscfHamiltonianParams) (ham : IpieHamShape) :
    List String × Option String :=
  let pre := ["num_elec", "Generic", "chk_path", "generate_hamiltonian_from_chk"]
  if ham.H1_shape = (2, pp.n_orb, pp.n_orb) then
    if ham.chol_shape0 = pp.n_orb * pp.n_orb then
      (pre ++ ["assert H1 shape", "assert chol shape",
               "ParticleHole", "half_rotate"], none)
    else
      (pre ++ ["assert H1 shape"], some "AssertionError")
  else
    (pre, some "AssertionError")

/-- The keyword arguments of the `AFQMC.build` call in the end-to-end
notebook. -/
structure AfqmcBuildArgs where
  num_elec : Nat × Nat
  num_blocks : Nat
  num_walkers : Nat
  seed : Nat
  deriving DecidableEq

/-- The `AFQMC.build(num_elec, ham, wfn, num_blocks=300,
num_walkers=50, seed=7)` call of the end-to-end notebook. -/
def qmc_driver_build : AfqmcBuildArgs where
  num_elec := num_elec_pair pyscf_params.n_elec
  num_blocks := 300
  num_walkers := 50
  seed := 7

/-- C1 counterexample: the claim that every pipeline step's `Data`
object is produced by a `build_...` factory from a `Params` object
plus a `dependencies` argument fails at the Hamiltonian stage — the
Hamiltonian build call of `high_level.ipynb`
(`build_hamiltonian_from_file`) passes no `dependencies` argument, so
not every build call of the two notebooks carries one. -/
theorem c1_counterexample :
    (high_level.buildCalls.map (fun b => (b.factory, b.deps)))[0]? =
      some ("build_hamiltonian_from_file", none)
  ∧ ((high_level.buildCalls ++ full_workflow.buildCalls).all
      (fun b => b.deps.isSome)) = false :=
  ⟨rfl, rfl⟩

/-- C1 (amended): in both notebooks every step's `Data` object is
produced by a `build_...` factory from that step's `Params` object;
every stage other than the Hamiltonian stage additionally passes a
`dependencies` mapping of upstream `Params` to upstream `Data`, while
the Hamiltonian stage's factory takes the `Params` object alone, with
no `dependencies` argument. -/
theorem c1_amended_thm :
    ([high_level, full_workflow].all (fun nb => nb.buildCalls.all (fun b =>
      (b.factory.take 6 == "build_")
      && (nb.stageOf? b.paramsArg == some b.stage)
      && (b.deps.isSome == (b.stage != Stage.hamiltonian))))) = true :=
  rfl

/-- C2: in each of the two notebooks the five build calls occur in the
fixed order Hamiltonian, trial wavefunction, blueprint, experiment,
analysis; every `Params` object references only `Params` of strictly
earlier stages, and every dependency key of every build call resolves
to a `Params` of a strictly earlier stage than the call's own. -/
theorem c2_pipeline_order :
    ([high_level, full_workflow].all (fun nb =>
      (nb.buildCalls.map (fun b => b.stage) ==
        [Stage.hamiltonian, Stage.trialWf, Stage.blueprint,
         Stage.experiment, Stage.analysis])
      && nb.paramsDefs.all (fun p => p.refs.all (fun e =>
           match nb.resolveP e with
           | some q =>
             match nb.stageOf? q with
             | some s => decide (s.idx < p.stage.idx)
             | none => false
           | none => false))
      && nb.buildCalls.all (fun b => (b.deps.getD []).all (fun kv =>
           match nb.resolveP kv.1 with
           | some q =>
             match nb.stageOf? q with
             | some s => decide (s.idx < b.stage.idx)
             | none => false
           | none => false)))) = true :=
  rfl

/-- C3 counterexample: the claim that no exception is caught and that
the code cells contain no branching fails at the setup cell of each
notebook — cell 2 of `high_level.ipynb` catches `ImportError` (and
recovers by pip-installing the package), so not every cell of the two
notebooks is handler-free and branch-free. -/
theorem c3_counterexample :
    hl_cells[2]?.map (fun c => c.caught) = some ["ImportError"]
  ∧ ((hl_cells ++ fw_cells).all
      (fun c => c.caught.isEmpty && c.ifCount == 0)) = false :=
  ⟨rfl, rfl⟩

/-- C3 (amended): the only exception handler in either notebook is the
`try`/`except ImportError` around the `recirq` import in the single
setup cell of each notebook, which recovers by pip-installing the
package; the only conditional branch is the output-directory existence
check before `mkdir` in the end-to-end notebook; no other handler or
branch (and hence no retry or failure-recovery logic) appears. -/
theorem c3_amended_thm :
    ((hl_cells ++ fw_cells).all
      (fun c => c.caught.isEmpty || c.caught == ["ImportError"])) = true
  ∧ (hl_cells.filter (fun c => !c.caught.isEmpty)).length = 1
  ∧ (fw_cells.filter (fun c => !c.caught.isEmpty)).length = 1
  ∧ (hl_cells.all (fun c => c.ifCount == 0)) = true
  ∧ ((fw_cells.filter (fun c => c.ifCount != 0)).map (fun c => c.ifCount)) = [1] :=
  ⟨rfl, rfl, rfl, rfl, rfl⟩

/-- C4 counterexample: the claim that every entry of the `toc` list is
a heading entry or a title entry paired with exactly one path fails at
entry 18, which is an `include` entry pointing at another
table-of-contents file. -/
theorem c4_counterexample :
    toc[18]? = some [("include", "/cirq/experiments/unitary/_toc.yaml")]
  ∧ (toc.all (fun e =>
      match e with
      | [("heading", _)] => true
      | [("title", _), ("path", _)] => true
      | _ => false)) = false :=
  ⟨rfl, rfl⟩

/-- C4 (amended): every entry of the `toc` list is a heading entry, a
title entry paired with exactly one path, or an `include` entry naming
another table-of-contents file, and there is exactly one `include`
entry. -/
theorem c4_amended_thm :
    (toc.all (fun e =>
      match e with
      | [("heading", _)] => true
      | [("title", _), ("path", _)] => true
      | [("include", _)] => true
      | _ => false)) = true
  ∧ (toc.countP (fun e =>
      match e with
      | [("include", _)] => true
      | _ => false)) = 1 :=
  ⟨rfl, rfl⟩

/-- C5: in the end-to-end notebook, execution continues past the
assertion cell exactly when the externally produced Hamiltonian has
`H1.shape = (2, 4, 4)` and `chol.shape` first dimension `16` (the
configured `n_orb = 4`); the `ParticleHole` trial wavefunction is
built exactly in that case, and on any mismatch the run stops with an
`AssertionError` before the trial wavefunction is built. -/
theorem c5_assertions (ham : IpieHamShape) :
    ((afqmc_section_run pyscf_params ham).2 = none ↔
      ham.H1_shape = (2, 4, 4) ∧ ham.chol_shape0 = 16)
  ∧ ("ParticleHole" ∈ (afqmc_section_run pyscf_params ham).1 ↔
      (afqmc_section_run pyscf_params ham).2 = none)
  ∧ ((afqmc_section_run pyscf_params ham).2 ≠ none →
      (afqmc_section_run pyscf_params ham).2 = some "AssertionError"
      ∧ "ParticleHole" ∉ (afqmc_section_run pyscf_params ham).1) := by
  rcases ham with ⟨h1, c0⟩
  by_cases e1 : h1 = (2, 4, 4) <;> by_cases e2 : c0 = 16 <;>
    simp [afqmc_section_run, pyscf_params, e1, e2]

/-- Witness for C5 at the shapes the assertions demand: the run
continues (no error) for `H1.shape = (2, 4, 4)` and first Cholesky
dimension `16`. -/
theorem c5_witness :
    (afqmc_section_run pyscf_params ⟨(2, 4, 4), 16⟩).2 = none :=
  ((c5_assertions ⟨(2, 4, 4), 16⟩).1).mpr ⟨rfl, rfl⟩

/-- C6: in every `build_..._from_dependencies` call of both notebooks,
each dependency key resolves to a `Params` object constructed earlier
in the same notebook, and the associated value is exactly the `Data`
object that was built from that same `Params` object. -/
theorem c6_dependency_threading :
    ([high_level, full_workflow].all (fun nb =>
      nb.buildCalls.all (fun b => (b.deps.getD []).all (fun kv =>
        match nb.resolveP kv.1 with
        | some k =>
          (match nb.posOfParams? k with
           | some kp => decide (kp < b.pos)
           | none => false)
          && (nb.builtFrom? kv.2 == some k)
        | none => false)))) = true :=
  rfl

/-- C7: the checkpoint-file path passed to the external routine
`generate_hamiltonian_from_chk` in the end-to-end notebook is exactly
`pyscf_params.base_path.with_suffix(".chk")`, the same path expression
as the `chk_path` computed immediately after the pyscf Hamiltonian is
built, whatever the library-supplied `base_path` is. -/
theorem c7_chk_path (base_path : String) :
    generate_hamiltonian_arg base_path = with_suffix base_path ".chk"
  ∧ generate_hamiltonian_arg base_path = chk_path_scf_cell base_path :=
  ⟨rfl, rfl⟩

/-- Witness for C7 at a concrete base path, evaluating the
suffix-replacement concretely. -/
theorem c7_witness :
    generate_hamiltonian_arg "data/TEST_square_H4" =
      chk_path_scf_cell "data/TEST_square_H4"
  ∧ generate_hamiltonian_arg "data/TEST_square_H4" = "data/TEST_square_H4.chk" :=
  ⟨(c7_chk_path "data/TEST_square_H4").2, by decide⟩

/-- C8: no code cell of either notebook imports a concurrency or
parallelism module, and every cell whose source mentions MPI is a
markdown (narrative) cell, never a code cell. -/
theorem c8_no_concurrency :
    ((hl_cells ++ fw_cells).all (fun c =>
      (c.importedModules.all (fun m =>
        !(["mpi4py", "threading", "multiprocessing",
           "concurrent.futures", "asyncio"].contains m)))
      && (!c.mentionsMPI || c.cellType == CellType.markdown))) = true :=
  rfl

/-- C9: `num_elec` in the end-to-end notebook is
`(n_elec // 2,) * 2` with floor division — the two components are
always equal, their sum is `n_elec` exactly for even `n_elec` and
`n_elec - 1` for odd `n_elec`; with the configured `n_elec = 4` the
tuple is `(2, 2)`, and it is the tuple passed to `AFQMC.build`. -/
theorem c9_num_elec (n : Nat) :
    (num_elec_pair n).1 = (num_elec_pair n).2
  ∧ (n % 2 = 0 → (num_elec_pair n).1 + (num_elec_pair n).2 = n)
  ∧ (n % 2 = 1 → (num_elec_pair n).1 + (num_elec_pair n).2 = n - 1)
  ∧ pyscf_params.n_elec = 4
  ∧ num_elec_pair pyscf_params.n_elec = (2, 2)
  ∧ qmc_driver_build.num_elec = num_elec_pair pyscf_params.n_elec := by
  refine ⟨rfl, ?_, ?_, rfl, rfl, rfl⟩ <;>
    intro h <;> simp only [num_elec_pair] <;> omega

/-- Witness for C9 at the odd input `5`: the components sum to
`5 - 1`. -/
theorem c9_witness :
    ((5 : Nat) % 2 = 1)
  ∧ (num_elec_pair 5).1 + (num_elec_pair 5).2 = 5 - 1 :=
  ⟨rfl, (c9_num_elec 5).2.2.1 rfl⟩

/-- C10: every stochastic stage configured in the end-to-end notebook
carries an explicit fixed integer seed — the blueprint `Params` with
`seed = 1`, the simulated-experiment `Params` with `seed = 1`, and the
`AFQMC.build` call with `seed = 7`. -/
theorem c10_seeds :
    ((full_workflow.paramsDefs.find? (fun p => p.stage == Stage.blueprint)).map
      (fun p => (p.name, p.seed))) = some ("blueprint_params", some 1)
  ∧ ((full_workflow.paramsDefs.find? (fun p => p.stage == Stage.experiment)).map
      (fun p => (p.name, p.seed))) = some ("simulated_experiment_params", some 1)
  ∧ qmc_driver_build.seed = 7 :=
  ⟨rfl, rfl, rfl⟩

end ReCirq
